import Mathlib

/-!
Shallow embedding of src/mdbExtensionController.ts: the command-dispatch
layer of the MongoDB VS Code extension controller.  Each registered command
handler is translated into a pure Lean function that returns the list of
observable collaborator calls it performs (an event trace) together with its
result.  A result of Except.error models a thrown JavaScript fault
(a rejected promise); Except.ok b models the boolean the handler resolves to.
External collaborator outcomes (whether a drop succeeded, what a playground
creation returns, what string an external call produces) are fields of the
tree-item structures or explicit parameters, mirroring the fact that the
controller only consumes their results.
-/

namespace MDBExtension

/-- A JavaScript runtime fault raised inside a handler, such as accessing a
property of undefined. -/
inductive JsError where
  | typeError
deriving BEq, DecidableEq

/-- A host-supplied command argument: either a value or the JavaScript
undefined that the host passes when no argument is given. -/
inductive JsValue where
  | undefined
  | str (s : String)
deriving BEq, DecidableEq

/-- Observable calls a handler makes on its collaborators, in order. -/
inductive Event where
  | trackCommandRun (command : String)
  | showInformationMessage (message : String)
  | showErrorMessage (message : String)
  | clipboardWriteText (text : String)
  | explorerRefresh
  | resetCache (node : String)
  | onDropDatabaseClicked (databaseName : String)
  | onDropCollectionClicked (collectionName : String)
  | onDeleteDocumentClicked (documentId : String)
  | createPlaygroundForCreateCollection (node : Option String)
  | executeCommand (command : String)
  | storageUpdate (key : String) (value : Bool)
  | connectionDisconnect
  | deactivateExplorer
  | deactivateHelpExplorer
  | deactivatePlaygroundsExplorer
  | deactivatePlaygroundController
  | deactivateTelemetryService
  | deactivateLanguageServerController
  | deactivateEditorsController
deriving BEq, DecidableEq

/-- The connection controller state visible to the handlers: the active
connection identifier, the two transition flags, and the connection-string
lookup used by the copy-connection-string command. -/
structure ConnectionController where
  activeConnectionId : Option String
  connecting : Bool
  disconnecting : Bool
  connectionStringFor : String → String

/-- Tree item for a saved connection. -/
structure ConnectionTreeItem where
  connectionId : String

/-- Tree item for a database; dropSucceeds is the outcome the external
onDropDatabaseClicked call resolves to. -/
structure DatabaseTreeItem where
  databaseName : String
  dropSucceeds : Bool

/-- Tree item for a collection; dropSucceeds is the outcome the external
onDropCollectionClicked call resolves to. -/
structure CollectionTreeItem where
  collectionName : String
  databaseName : String
  dropSucceeds : Bool

/-- Tree item for a document; deleteSucceeds is the outcome the external
onDeleteDocumentClicked call resolves to. -/
structure DocumentTreeItem where
  documentId : String
  nameSpace : String
  deleteSucceeds : Bool
  stringifiedEJSONDocumentContents : String

/-- Tree item for a schema field. -/
structure FieldTreeItem where
  fieldName : String

/-- Tree item for a schema node. -/
structure SchemaTreeItem where
  schemaId : String

/-- Tree item for the index list of a collection. -/
structure IndexListTreeItem where
  databaseName : String
  collectionName : String

/-- Tree item for the document list of a collection. -/
structure DocumentListTreeItem where
  namespaceName : String

/-- The output of one handler invocation: its event trace and its result. -/
abbrev HandlerOutput := List Event × Except JsError Bool

/- Event classification helpers used by the theorems. -/

/-- Whether an event is a user-visible information message. -/
def isInformationMessage : Event → Bool
  | Event.showInformationMessage _ => true
  | _ => false

/-- Whether an event is a user-visible error advisory. -/
def isErrorMessage : Event → Bool
  | Event.showErrorMessage _ => true
  | _ => false

/-- Whether an event is an explorer refresh signal. -/
def isExplorerRefresh : Event → Bool
  | Event.explorerRefresh => true
  | _ => false

/-- Whether an event resets the cache of some tree node. -/
def isResetCacheEvent : Event → Bool
  | Event.resetCache _ => true
  | _ => false

/-- Whether an event is a telemetry command-run record. -/
def isTrackCommandRun : Event → Bool
  | Event.trackCommandRun _ => true
  | _ => false

/-- Whether an event invokes playground creation for a new collection. -/
def isCreatePlaygroundEvent : Event → Bool
  | Event.createPlaygroundForCreateCollection _ => true
  | _ => false

/-- Whether an event triggers the open-overview command. -/
def isOpenOverviewCommand : Event → Bool
  | Event.executeCommand c => c == "mdb.openOverviewPage"
  | _ => false

/-- Whether an event persists the first-run flag. -/
def isStorageUpdateEvent : Event → Bool
  | Event.storageUpdate _ _ => true
  | _ => false

/-- Whether an event writes to the clipboard. -/
def isClipboardWrite : Event → Bool
  | Event.clipboardWriteText _ => true
  | _ => false

/-- Whether an event is the connection-controller disconnect call. -/
def isDisconnectEvent : Event → Bool
  | Event.connectionDisconnect => true
  | _ => false

/-- Whether an event deactivates one of the controller components. -/
def isDeactivationEvent : Event → Bool
  | Event.deactivateExplorer => true
  | Event.deactivateHelpExplorer => true
  | Event.deactivatePlaygroundsExplorer => true
  | Event.deactivatePlaygroundController => true
  | Event.deactivateTelemetryService => true
  | Event.deactivateLanguageServerController => true
  | Event.deactivateEditorsController => true
  | _ => false

/- The command dispatcher wrapper, from registerCommand. -/

/-- The wrapped handler built inside registerCommand.  The wrapper function
declares a single parameter, so under JavaScript call semantics it receives
the first host-supplied argument (undefined when none), records the
telemetry event, and then calls the inner handler with that single
argument. -/
def commandHandlerWithTelemetry (command : String)
    (commandHandler : List JsValue → HandlerOutput)
    (hostArgs : List JsValue) : HandlerOutput :=
  let argsValue := hostArgs.headD JsValue.undefined
  let result := commandHandler [argsValue]
  (Event.trackCommandRun command :: result.1, result.2)

/-- JavaScript call semantics for a handler that declares exactly one
parameter: the parameter is bound to the first supplied argument, or to
undefined when the argument list is empty.  Every handler registered in
registerCommands declares at most one parameter, so this captures how each
registered handler consumes a host argument list. -/
def applyUnaryJs (f : JsValue → HandlerOutput) (args : List JsValue) : HandlerOutput :=
  f (args.headD JsValue.undefined)

/- Tree view command handlers, from registerTreeViewCommands. -/

/-- Handler for MDB_ADD_DATABASE.  Checks in order: missing element,
element connection not the active connection, disconnecting, connecting;
otherwise creates the playground for collection creation, whose external
result is createPlaygroundResult. -/
def addDatabaseHandler (cc : ConnectionController)
    (element : Option ConnectionTreeItem)
    (createPlaygroundResult : Bool) : HandlerOutput :=
  match element with
  | none =>
      ([Event.showErrorMessage
          "Please wait for the connection to finish loading before adding a database."],
        Except.ok false)
  | some el =>
      if some el.connectionId ≠ cc.activeConnectionId then
        ([Event.showErrorMessage
            "Please connect to this connection before adding a database."],
          Except.ok false)
      else if cc.disconnecting then
        ([Event.showErrorMessage "Unable to add database: currently disconnecting."],
          Except.ok false)
      else if cc.connecting then
        ([Event.showErrorMessage "Unable to add database: currently connecting."],
          Except.ok false)
      else
        ([Event.createPlaygroundForCreateCollection (some el.connectionId)],
          Except.ok createPlaygroundResult)

/-- Handler for MDB_ADD_COLLECTION.  The only precondition it tests is
isDisconnecting; otherwise it passes the element straight to playground
creation. -/
def addCollectionHandler (cc : ConnectionController)
    (element : Option DatabaseTreeItem)
    (createPlaygroundResult : Bool) : HandlerOutput :=
  if cc.disconnecting then
    ([Event.showErrorMessage "Unable to add collection: currently disconnecting."],
      Except.ok false)
  else
    ([Event.createPlaygroundForCreateCollection (element.map DatabaseTreeItem.databaseName)],
      Except.ok createPlaygroundResult)

/-- Handler for MDB_DROP_DATABASE.  Dereferences the element without a
missing-argument check, awaits the external drop, and only on success shows
the confirmation and refreshes the explorer. -/
def dropDatabaseHandler (element : Option DatabaseTreeItem) : HandlerOutput :=
  match element with
  | none => ([], Except.error JsError.typeError)
  | some el =>
      if el.dropSucceeds then
        ([Event.onDropDatabaseClicked el.databaseName,
          Event.showInformationMessage "Database successfully dropped.",
          Event.explorerRefresh],
          Except.ok true)
      else
        ([Event.onDropDatabaseClicked el.databaseName], Except.ok false)

/-- Handler for MDB_DROP_COLLECTION, same shape as the database drop. -/
def dropCollectionHandler (element : Option CollectionTreeItem) : HandlerOutput :=
  match element with
  | none => ([], Except.error JsError.typeError)
  | some el =>
      if el.dropSucceeds then
        ([Event.onDropCollectionClicked el.collectionName,
          Event.showInformationMessage "Collection successfully dropped.",
          Event.explorerRefresh],
          Except.ok true)
      else
        ([Event.onDropCollectionClicked el.collectionName], Except.ok false)

/-- Handler for MDB_DELETE_DOCUMENT_FROM_TREE_VIEW, same shape as the
drops. -/
def deleteDocumentHandler (element : Option DocumentTreeItem) : HandlerOutput :=
  match element with
  | none => ([], Except.error JsError.typeError)
  | some el =>
      if el.deleteSucceeds then
        ([Event.onDeleteDocumentClicked el.documentId,
          Event.showInformationMessage "Document successfully deleted.",
          Event.explorerRefresh],
          Except.ok true)
      else
        ([Event.onDeleteDocumentClicked el.documentId], Except.ok false)

/-- Handler for MDB_COPY_DATABASE_NAME: reads databaseName from the element
without a missing-argument check. -/
def copyDatabaseNameHandler (element : Option DatabaseTreeItem) : HandlerOutput :=
  match element with
  | none => ([], Except.error JsError.typeError)
  | some el =>
      ([Event.clipboardWriteText el.databaseName,
        Event.showInformationMessage "Copied to clipboard."],
        Except.ok true)

/-- Handler for MDB_COPY_COLLECTION_NAME. -/
def copyCollectionNameHandler (element : Option CollectionTreeItem) : HandlerOutput :=
  match element with
  | none => ([], Except.error JsError.typeError)
  | some el =>
      ([Event.clipboardWriteText el.collectionName,
        Event.showInformationMessage "Copied to clipboard."],
        Except.ok true)

/-- Handler for MDB_COPY_CONNECTION_STRING: looks up the connection string
by the element connection id, writes it to the clipboard, shows the
message. -/
def copyConnectionStringHandler (cc : ConnectionController)
    (element : Option ConnectionTreeItem) : HandlerOutput :=
  match element with
  | none => ([], Except.error JsError.typeError)
  | some el =>
      ([Event.clipboardWriteText (cc.connectionStringFor el.connectionId),
        Event.showInformationMessage "Copied to clipboard."],
        Except.ok true)

/-- Handler for MDB_COPY_SCHEMA_FIELD_NAME. -/
def copySchemaFieldNameHandler (element : Option FieldTreeItem) : HandlerOutput :=
  match element with
  | none => ([], Except.error JsError.typeError)
  | some el =>
      ([Event.clipboardWriteText el.fieldName,
        Event.showInformationMessage "Copied to clipboard."],
        Except.ok true)

/-- Handler for MDB_COPY_DOCUMENT_CONTENTS_FROM_TREE_VIEW: awaits the
stringified EJSON contents of the document, copies them, shows the
message. -/
def copyDocumentContentsHandler (element : Option DocumentTreeItem) : HandlerOutput :=
  match element with
  | none => ([], Except.error JsError.typeError)
  | some el =>
      ([Event.clipboardWriteText el.stringifiedEJSONDocumentContents,
        Event.showInformationMessage "Copied to clipboard."],
        Except.ok true)

/-- Handler for MDB_GENERATE_OBJECTID_TO_CLIPBOARD: generatedHexId is the
hex string the external id generator produces. -/
def generateObjectIdToClipboardHandler (generatedHexId : String) : HandlerOutput :=
  ([Event.clipboardWriteText generatedHexId,
    Event.showInformationMessage "Copied to clipboard."],
    Except.ok true)

/-- Handler for MDB_REFRESH_CONNECTION: reset the node cache, then refresh
the explorer, then resolve true. -/
def refreshConnectionHandler (connectionTreeItem : ConnectionTreeItem) : HandlerOutput :=
  ([Event.resetCache connectionTreeItem.connectionId, Event.explorerRefresh],
    Except.ok true)

/-- Handler for MDB_REFRESH_DATABASE. -/
def refreshDatabaseHandler (databaseTreeItem : DatabaseTreeItem) : HandlerOutput :=
  ([Event.resetCache databaseTreeItem.databaseName, Event.explorerRefresh],
    Except.ok true)

/-- Handler for MDB_REFRESH_COLLECTION. -/
def refreshCollectionHandler (collectionTreeItem : CollectionTreeItem) : HandlerOutput :=
  ([Event.resetCache collectionTreeItem.collectionName, Event.explorerRefresh],
    Except.ok true)

/-- Handler for MDB_REFRESH_DOCUMENT_LIST (the reset is awaited before the
refresh). -/
def refreshDocumentListHandler (documentsListTreeItem : DocumentListTreeItem) : HandlerOutput :=
  ([Event.resetCache documentsListTreeItem.namespaceName, Event.explorerRefresh],
    Except.ok true)

/-- Handler for MDB_REFRESH_SCHEMA. -/
def refreshSchemaHandler (schemaTreeItem : SchemaTreeItem) : HandlerOutput :=
  ([Event.resetCache schemaTreeItem.schemaId, Event.explorerRefresh],
    Except.ok true)

/-- Handler for MDB_REFRESH_INDEXES. -/
def refreshIndexesHandler (indexListTreeItem : IndexListTreeItem) : HandlerOutput :=
  ([Event.resetCache indexListTreeItem.collectionName, Event.explorerRefresh],
    Except.ok true)

/- First-run gate, from showOverviewPageIfRecentlyInstalled. -/

/-- One activation of the first-run gate: reads the persisted flag, and when
it is not yet set, triggers the open-overview command if there are no saved
connections and then unconditionally persists the flag.  Returns the events
and the new value of the persisted flag. -/
def showOverviewPageIfRecentlyInstalled (hasBeenShownInitialView : Bool)
    (hasSavedConnections : Bool) : List Event × Bool :=
  if !hasBeenShownInitialView then
    ((if !hasSavedConnections then [Event.executeCommand "mdb.openOverviewPage"] else []) ++
      [Event.storageUpdate "GLOBAL_HAS_BEEN_SHOWN_INITIAL_VIEW" true],
      true)
  else
    ([], hasBeenShownInitialView)

/-- A sequence of activations: the persisted flag is threaded from one
activation to the next, while whether saved connections exist is an external
input per activation. -/
def runActivations : Bool → List Bool → List Event
  | _, [] => []
  | flag, hasSaved :: rest =>
      let step := showOverviewPageIfRecentlyInstalled flag hasSaved
      step.1 ++ runActivations step.2 rest

/- Teardown, from dispose and deactivate. -/

/-- The deactivate sequence: await the connection-controller disconnect,
then deactivate each component in source order. -/
def deactivate : List Event :=
  [Event.connectionDisconnect,
    Event.deactivateExplorer,
    Event.deactivateHelpExplorer,
    Event.deactivatePlaygroundsExplorer,
    Event.deactivatePlaygroundController,
    Event.deactivateTelemetryService,
    Event.deactivateLanguageServerController,
    Event.deactivateEditorsController]

/-- dispose awaits deactivate and does nothing else. -/
def dispose : List Event := deactivate

/- Theorems settling the claims. -/

/-- Claim C1: for each mutating tree command (drop database, drop collection,
delete document), a successful external mutation yields exactly one
user-visible confirmation message, exactly one explorer refresh, and the
result true; a failed mutation yields no confirmation, no refresh, and the
result false. -/
theorem C1_mutation_confirm_refresh_iff_success (db : DatabaseTreeItem)
    (col : CollectionTreeItem) (doc : DocumentTreeItem) :
    ((dropDatabaseHandler (some db)).1.countP isInformationMessage
        = if db.dropSucceeds then 1 else 0) ∧
    ((dropDatabaseHandler (some db)).1.countP isExplorerRefresh
        = if db.dropSucceeds then 1 else 0) ∧
    ((dropDatabaseHandler (some db)).2 = Except.ok db.dropSucceeds) ∧
    ((dropCollectionHandler (some col)).1.countP isInformationMessage
        = if col.dropSucceeds then 1 else 0) ∧
    ((dropCollectionHandler (some col)).1.countP isExplorerRefresh
        = if col.dropSucceeds then 1 else 0) ∧
    ((dropCollectionHandler (some col)).2 = Except.ok col.dropSucceeds) ∧
    ((deleteDocumentHandler (some doc)).1.countP isInformationMessage
        = if doc.deleteSucceeds then 1 else 0) ∧
    ((deleteDocumentHandler (some doc)).1.countP isExplorerRefresh
        = if doc.deleteSucceeds then 1 else 0) ∧
    ((deleteDocumentHandler (some doc)).2 = Except.ok doc.deleteSucceeds) := by
  obtain ⟨dn, ds⟩ := db
  obtain ⟨cn, cdn, cs⟩ := col
  obtain ⟨di, ns, dcs, sc⟩ := doc
  cases ds <;> cases cs <;> cases dcs <;>
    simp [dropDatabaseHandler, dropCollectionHandler, deleteDocumentHandler,
      isInformationMessage, isExplorerRefresh, List.countP_cons, List.countP_nil]

/-- Claim C2: the wrapper built by registerCommand records the telemetry
event for its command id exactly once per invocation, as the very first
event, before any event of the inner handler, and it does so unconditionally:
the statement places no assumption on the inner handler result, which is
passed through even when it is a fault. -/
theorem C2_telemetry_unconditional_and_first (command : String)
    (commandHandler : List JsValue → HandlerOutput) (hostArgs : List JsValue) :
    ((commandHandlerWithTelemetry command commandHandler hostArgs).1
        = Event.trackCommandRun command
            :: (commandHandler [hostArgs.headD JsValue.undefined]).1) ∧
    ((commandHandlerWithTelemetry command commandHandler hostArgs).1.countP isTrackCommandRun
        = (commandHandler [hostArgs.headD JsValue.undefined]).1.countP isTrackCommandRun + 1) ∧
    ((commandHandlerWithTelemetry command commandHandler hostArgs).2
        = (commandHandler [hostArgs.headD JsValue.undefined]).2) := by
  refine ⟨rfl, ?_, rfl⟩
  simp [commandHandlerWithTelemetry, isTrackCommandRun, List.countP_cons]

/-- Claim C3 counterexample: with the connection controller currently
connecting (and an element whose database lives on another connection), the
add-collection handler shows no advisory, still invokes playground creation,
and returns true — contradicting the claim that it checks isConnecting and
the identity match and on mismatch returns false without the mutation. -/
theorem C3_counterexample :
    (ConnectionController.mk (some "connA") true false (fun _ => "")).connecting = true ∧
    ((addCollectionHandler
        (ConnectionController.mk (some "connA") true false (fun _ => ""))
        (some (DatabaseTreeItem.mk "otherDb" true)) true).1.countP isErrorMessage = 0) ∧
    ((addCollectionHandler
        (ConnectionController.mk (some "connA") true false (fun _ => ""))
        (some (DatabaseTreeItem.mk "otherDb" true)) true).1.countP isCreatePlaygroundEvent = 1) ∧
    ((addCollectionHandler
        (ConnectionController.mk (some "connA") true false (fun _ => ""))
        (some (DatabaseTreeItem.mk "otherDb" true)) true).2 = Except.ok true) :=
  ⟨rfl, rfl, rfl, rfl⟩

/-- Claim C3 amended: the add-collection handler checks only
isDisconnecting.  When disconnecting it shows exactly one advisory and
returns false without invoking playground creation; otherwise it invokes
playground creation and returns its result, independently of isConnecting
and of the connection-identity match (both are universally quantified here
and do not occur in the conclusion). -/
theorem C3_addCollection_checks_only_disconnecting (cc : ConnectionController)
    (element : Option DatabaseTreeItem) (res : Bool) :
    ((addCollectionHandler cc element res).1.countP isErrorMessage
        = if cc.disconnecting then 1 else 0) ∧
    ((addCollectionHandler cc element res).1.countP isCreatePlaygroundEvent
        = if cc.disconnecting then 0 else 1) ∧
    ((addCollectionHandler cc element res).2
        = Except.ok (if cc.disconnecting then false else res)) := by
  cases hd : cc.disconnecting <;>
    simp [addCollectionHandler, hd, isErrorMessage, isCreatePlaygroundEvent,
      List.countP_cons, List.countP_nil]

/-- Claim C4: the add-database handler returns false with exactly one
advisory and no playground creation whenever the element is missing, the
element connection is not the active connection, the controller is
disconnecting, or it is connecting; when none of these violations holds it
invokes playground creation exactly once and returns its result. -/
theorem C4_addDatabase_preconditions (cc : ConnectionController)
    (el : ConnectionTreeItem) (res : Bool) :
    (addDatabaseHandler cc none res
        = ([Event.showErrorMessage
            "Please wait for the connection to finish loading before adding a database."],
          Except.ok false)) ∧
    ((addDatabaseHandler cc (some el) res).1.countP isErrorMessage
        = if some el.connectionId ≠ cc.activeConnectionId ∨ cc.disconnecting = true
              ∨ cc.connecting = true then 1 else 0) ∧
    ((addDatabaseHandler cc (some el) res).1.countP isCreatePlaygroundEvent
        = if some el.connectionId ≠ cc.activeConnectionId ∨ cc.disconnecting = true
              ∨ cc.connecting = true then 0 else 1) ∧
    ((addDatabaseHandler cc (some el) res).2
        = Except.ok (if some el.connectionId ≠ cc.activeConnectionId ∨ cc.disconnecting = true
              ∨ cc.connecting = true then false else res)) := by
  refine ⟨rfl, ?_, ?_, ?_⟩ <;>
  · by_cases hid : some el.connectionId = cc.activeConnectionId <;>
      cases hd : cc.disconnecting <;> cases hc : cc.connecting <;>
      simp [addDatabaseHandler, hid, hd, hc, isErrorMessage, isCreatePlaygroundEvent,
        List.countP_cons, List.countP_nil]

/-- Helper: once the persisted first-run flag is set, no activation produces
any event. -/
theorem runActivations_flag_set (l : List Bool) : runActivations true l = [] := by
  induction l with
  | nil => rfl
  | cons h t ih =>
      simpa [runActivations, showOverviewPageIfRecentlyInstalled] using ih

/-- Claim C5: starting from the flag not set, across any sequence of
activations the flag is persisted exactly once when at least one activation
occurs (and regardless of whether saved connections existed then), and the
open-overview command fires exactly once when the first activation had no
saved connections and never otherwise; starting from the flag already set,
nothing ever fires. -/
theorem C5_first_run_gate (hasSavedList : List Bool) :
    ((runActivations false hasSavedList).countP isOpenOverviewCommand
        = match hasSavedList with
          | [] => 0
          | h :: _ => if h then 0 else 1) ∧
    ((runActivations false hasSavedList).countP isStorageUpdateEvent
        = if hasSavedList.isEmpty then 0 else 1) ∧
    ((runActivations true hasSavedList).countP isOpenOverviewCommand = 0) ∧
    ((runActivations true hasSavedList).countP isStorageUpdateEvent = 0) := by
  refine ⟨?_, ?_, by simp [runActivations_flag_set], by simp [runActivations_flag_set]⟩ <;>
  · cases hasSavedList with
    | nil => rfl
    | cons h t =>
        cases h <;>
          simp [runActivations, showOverviewPageIfRecentlyInstalled,
            runActivations_flag_set, isOpenOverviewCommand, isStorageUpdateEvent,
            List.countP_cons, List.countP_nil]

/-- Claim C6: for any handler declaring a single parameter, as every handler
registered through registerCommand does, the wrapped call returns exactly
the result the unwrapped handler produces on the same host argument list,
and performs exactly the telemetry event followed by the unwrapped handler
events.  This holds because the wrapper forwards the first host argument and
JavaScript call semantics make a single-parameter handler depend only on
that argument. -/
theorem C6_wrapped_result_unchanged (command : String)
    (f : JsValue → HandlerOutput) (hostArgs : List JsValue) :
    ((commandHandlerWithTelemetry command (applyUnaryJs f) hostArgs).2
        = (applyUnaryJs f hostArgs).2) ∧
    ((commandHandlerWithTelemetry command (applyUnaryJs f) hostArgs).1
        = Event.trackCommandRun command :: (applyUnaryJs f hostArgs).1) :=
  ⟨rfl, rfl⟩

/-- Claim C7 counterexample: invoked with a missing argument, the
drop-database handler shows no advisory and does not return false — it
raises a fault — contradicting the claim that such handlers check for the
missing argument and fail gracefully. -/
theorem C7_counterexample :
    dropDatabaseHandler none = ([], Except.error JsError.typeError) ∧
    (dropDatabaseHandler none).1.countP isErrorMessage = 0 ∧
    (dropDatabaseHandler none).2 ≠ Except.ok false :=
  ⟨rfl, rfl, fun h => Except.noConfusion h⟩

/-- Claim C7 amended: only the add-database handler checks for a missing
argument and fails gracefully with an advisory and false; the drop-database,
copy-database-name, drop-collection and delete-document handlers dereference
the missing argument and raise a fault. -/
theorem C7_missing_argument_behavior (cc : ConnectionController) (res : Bool) :
    (addDatabaseHandler cc none res
        = ([Event.showErrorMessage
            "Please wait for the connection to finish loading before adding a database."],
          Except.ok false)) ∧
    dropDatabaseHandler none = ([], Except.error JsError.typeError) ∧
    copyDatabaseNameHandler none = ([], Except.error JsError.typeError) ∧
    dropCollectionHandler none = ([], Except.error JsError.typeError) ∧
    deleteDocumentHandler none = ([], Except.error JsError.typeError) :=
  ⟨rfl, rfl, rfl, rfl, rfl⟩

/-- Claim C8: every refresh-style tree command resets the invoking node
cache exactly once, refreshes the explorer exactly once, performs the cache
reset strictly before any refresh (the reset lies in the prefix of the trace
preceding the first refresh), and resolves to true. -/
theorem C8_refresh_commands (ci : ConnectionTreeItem) (di : DatabaseTreeItem)
    (coli : CollectionTreeItem) (dli : DocumentListTreeItem)
    (si : SchemaTreeItem) (ili : IndexListTreeItem) :
    ((refreshConnectionHandler ci).1.countP isResetCacheEvent = 1) ∧
    ((refreshConnectionHandler ci).1.countP isExplorerRefresh = 1) ∧
    (((refreshConnectionHandler ci).1.takeWhile
        (fun e => !isExplorerRefresh e)).countP isResetCacheEvent = 1) ∧
    ((refreshConnectionHandler ci).2 = Except.ok true) ∧
    ((refreshDatabaseHandler di).1.countP isResetCacheEvent = 1) ∧
    ((refreshDatabaseHandler di).1.countP isExplorerRefresh = 1) ∧
    (((refreshDatabaseHandler di).1.takeWhile
        (fun e => !isExplorerRefresh e)).countP isResetCacheEvent = 1) ∧
    ((refreshDatabaseHandler di).2 = Except.ok true) ∧
    ((refreshCollectionHandler coli).1.countP isResetCacheEvent = 1) ∧
    ((refreshCollectionHandler coli).1.countP isExplorerRefresh = 1) ∧
    (((refreshCollectionHandler coli).1.takeWhile
        (fun e => !isExplorerRefresh e)).countP isResetCacheEvent = 1) ∧
    ((refreshCollectionHandler coli).2 = Except.ok true) ∧
    ((refreshDocumentListHandler dli).1.countP isResetCacheEvent = 1) ∧
    ((refreshDocumentListHandler dli).1.countP isExplorerRefresh = 1) ∧
    (((refreshDocumentListHandler dli).1.takeWhile
        (fun e => !isExplorerRefresh e)).countP isResetCacheEvent = 1) ∧
    ((refreshDocumentListHandler dli).2 = Except.ok true) ∧
    ((refreshSchemaHandler si).1.countP isResetCacheEvent = 1) ∧
    ((refreshSchemaHandler si).1.countP isExplorerRefresh = 1) ∧
    (((refreshSchemaHandler si).1.takeWhile
        (fun e => !isExplorerRefresh e)).countP isResetCacheEvent = 1) ∧
    ((refreshSchemaHandler si).2 = Except.ok true) ∧
    ((refreshIndexesHandler ili).1.countP isResetCacheEvent = 1) ∧
    ((refreshIndexesHandler ili).1.countP isExplorerRefresh = 1) ∧
    (((refreshIndexesHandler ili).1.takeWhile
        (fun e => !isExplorerRefresh e)).countP isResetCacheEvent = 1) ∧
    ((refreshIndexesHandler ili).2 = Except.ok true) :=
  ⟨rfl, rfl, rfl, rfl, rfl, rfl, rfl, rfl, rfl, rfl, rfl, rfl,
    rfl, rfl, rfl, rfl, rfl, rfl, rfl, rfl, rfl, rfl, rfl, rfl⟩

/-- Claim C9: dispose performs exactly the deactivate sequence, and that
sequence begins with the connection-controller disconnect, which completes
before any component deactivation (the disconnect lies entirely in the
prefix preceding the first deactivation event); each of the seven components
is deactivated exactly once. -/
theorem C9_teardown_order :
    dispose = deactivate ∧
    deactivate.head? = some Event.connectionDisconnect ∧
    deactivate.countP isDisconnectEvent = 1 ∧
    ((deactivate.takeWhile (fun e => !isDeactivationEvent e)).countP isDisconnectEvent = 1) ∧
    deactivate.countP isDeactivationEvent = 7 ∧
    deactivate.countP (· == Event.deactivateExplorer) = 1 ∧
    deactivate.countP (· == Event.deactivateHelpExplorer) = 1 ∧
    deactivate.countP (· == Event.deactivatePlaygroundsExplorer) = 1 ∧
    deactivate.countP (· == Event.deactivatePlaygroundController) = 1 ∧
    deactivate.countP (· == Event.deactivateTelemetryService) = 1 ∧
    deactivate.countP (· == Event.deactivateLanguageServerController) = 1 ∧
    deactivate.countP (· == Event.deactivateEditorsController) = 1 := by
  decide

/-- Claim C10: every clipboard-copy command writes the corresponding text to
the clipboard, shows the single information message about the copy, and
returns true for every input — no input produces a false return or a
fault. -/
theorem C10_copy_commands (cc : ConnectionController) (ci : ConnectionTreeItem)
    (di : DatabaseTreeItem) (coli : CollectionTreeItem) (fti : FieldTreeItem)
    (doci : DocumentTreeItem) (generatedHexId : String) :
    (copyConnectionStringHandler cc (some ci)
        = ([Event.clipboardWriteText (cc.connectionStringFor ci.connectionId),
            Event.showInformationMessage "Copied to clipboard."], Except.ok true)) ∧
    (copyDatabaseNameHandler (some di)
        = ([Event.clipboardWriteText di.databaseName,
            Event.showInformationMessage "Copied to clipboard."], Except.ok true)) ∧
    (copyCollectionNameHandler (some coli)
        = ([Event.clipboardWriteText coli.collectionName,
            Event.showInformationMessage "Copied to clipboard."], Except.ok true)) ∧
    (copySchemaFieldNameHandler (some fti)
        = ([Event.clipboardWriteText fti.fieldName,
            Event.showInformationMessage "Copied to clipboard."], Except.ok true)) ∧
    (copyDocumentContentsHandler (some doci)
        = ([Event.clipboardWriteText doci.stringifiedEJSONDocumentContents,
            Event.showInformationMessage "Copied to clipboard."], Except.ok true)) ∧
    (generateObjectIdToClipboardHandler generatedHexId
        = ([Event.clipboardWriteText generatedHexId,
            Event.showInformationMessage "Copied to clipboard."], Except.ok true)) :=
  ⟨rfl, rfl, rfl, rfl, rfl, rfl⟩

end MDBExtension
